import Mathlib

/-!
Shallow embedding of the chili-classification ingestion/query API (src/main.py).

The service keeps one relational table `klasifikasi` (id, path, hasil,
created_at, updated_at) and a blob directory `uploads/` keyed by the raw
uploaded filename.  We model the database table as a list of records together
with the next auto-increment id, and the blob directory as an association list
from path to raw bytes.  Machine strings are Lean `String`s; the Python
operations `str.split(".")`, `[-1]` and `str.lower()` used for extension
validation are embedded explicitly over the character list.  Timestamps are
abstracted as a `Nat` clock value passed to the upload handler (the database
fills `created_at`/`updated_at` with CURRENT_TIMESTAMP at insert).

The record-insert step (`db.add`/`db.commit`) may fail at runtime (the handler
catches any exception and re-raises HTTP 500); this possibility is modelled by
an explicit `insertOk : Bool` oracle argument to the upload handler.
-/

namespace Coba

/-- Raw image bytes (the multipart file payload), as a list of byte values. -/
abbrev Blob := List Nat

/-- A row of the `klasifikasi` table (class `Klasifikasi` in main.py):
auto-increment integer `id`, blob `path`, integer label `hasil`
(0 = Sakit, 1 = Sehat), and the two timestamp columns. -/
structure Klasifikasi where
  id : Nat
  path : String
  hasil : Int
  created_at : Nat
  updated_at : Nat
deriving Repr, DecidableEq

/-- The persistent state: the table rows in insertion order, the next
auto-increment id, and the blob store (path ↦ bytes, one entry per path). -/
structure State where
  records : List Klasifikasi
  nextId : Nat
  blobs : List (String × Blob)
deriving Repr, DecidableEq

/-- Fresh MySQL table (auto-increment starts at 1) and empty uploads dir. -/
def initialState : State := { records := [], nextId := 1, blobs := [] }

/-- A FastAPI `HTTPException`: status code and detail message. -/
structure HTTPException where
  status_code : Nat
  detail : String
deriving Repr, DecidableEq

/-- Whether a handler outcome is an HTTP error with the given status code. -/
def isHTTPError (code : Nat) : Except HTTPException α → Bool
  | Except.error e => e.status_code == code
  | Except.ok _ => false

/-- Whether a handler outcome is a success. -/
def isOkE : Except HTTPException α → Bool
  | Except.ok _ => true
  | Except.error _ => false

/-- Python `s.split(".")` on a character list: splits on every occurrence of
the dot, keeping empty pieces, and always returns a non-empty list
(`"".split(".") == [""]`). -/
def pySplitDot : List Char → List (List Char)
  | [] => [[]]
  | c :: rest =>
    match pySplitDot rest with
    | [] => [[c]]
    | h :: t => if c = '.' then [] :: h :: t else (c :: h) :: t

/-- Python `str.lower()` (ASCII case fold suffices for the extension check). -/
def pyLower (s : String) : String := String.mk (s.data.map Char.toLower)

/-- `file.filename.split(".")[-1].lower()` from the upload handler: the last
dot-separated component of the filename, lowercased. -/
def file_extension (filename : String) : String :=
  pyLower (String.mk ((pySplitDot filename.data).getLastD []))

/-- `allowed_extensions = {"jpg", "jpeg", "png", "bmp"}` from main.py. -/
def allowed_extensions : List String := ["jpg", "jpeg", "png", "bmp"]

/-- `UPLOAD_DIR = "uploads"` from main.py. -/
def UPLOAD_DIR : String := "uploads"

/-- Writing a blob: `open(file_location, "wb")` truncates, so an existing
entry under the same path is overwritten, otherwise a new entry is appended. -/
def blobWrite (k : String) (v : Blob) : List (String × Blob) → List (String × Blob)
  | [] => [(k, v)]
  | (k0, v0) :: rest =>
    if k0 = k then (k, v) :: rest else (k0, v0) :: blobWrite k v rest

/-- Reading the blob store at a path. -/
def lookupBlob (k : String) : List (String × Blob) → Option Blob
  | [] => none
  | (k0, v0) :: rest => if k0 = k then some v0 else lookupBlob k rest

/-- `"Sehat" if hasil == 1 else "Sakit"`: how every endpoint renders a label. -/
def hasilLabel (hasil : Int) : String := if hasil = 1 then "Sehat" else "Sakit"

/-- The record as serialized in every response body (timestamps stringified in
the real service; we keep the clock value). -/
structure RecordOut where
  id : Nat
  path : String
  hasil : String
  created_at : Nat
  updated_at : Nat
deriving Repr, DecidableEq

/-- Serialization of a table row used by every endpoint. -/
def renderRecord (r : Klasifikasi) : RecordOut :=
  { id := r.id, path := r.path, hasil := hasilLabel r.hasil,
    created_at := r.created_at, updated_at := r.updated_at }

/-- Body of the 201 response of `POST /upload`. -/
structure UploadResponse where
  status_code : Nat
  data : RecordOut
deriving Repr, DecidableEq

/-- `POST /upload` (`upload_data` in main.py).  Validates the filename
extension, then the label; on success writes the blob under
`uploads/<filename>` and then inserts the row.  `insertOk` says whether the
database insert succeeds; when it fails the generic exception handler turns
the error into HTTP 500 — the blob write has already happened. -/
def upload_data (filename : String) (content : Blob) (hasil : Int)
    (insertOk : Bool) (now : Nat) (s : State) :
    Except HTTPException UploadResponse × State :=
  if allowed_extensions.contains (file_extension filename) = false then
    (Except.error ⟨400, "File type tidak didukung. Gunakan: jpg, jpeg, png, bmp"⟩, s)
  else if ¬(hasil = 0 ∨ hasil = 1) then
    (Except.error ⟨400, "Nilai hasil harus 0 (Sakit) atau 1 (Sehat)"⟩, s)
  else
    let file_location := UPLOAD_DIR ++ "/" ++ filename
    let s1 : State := { s with blobs := blobWrite file_location content s.blobs }
    if insertOk then
      let new_data : Klasifikasi :=
        { id := s.nextId, path := file_location, hasil := hasil,
          created_at := now, updated_at := now }
      (Except.ok { status_code := 201, data := renderRecord new_data },
       { s1 with records := s1.records ++ [new_data], nextId := s.nextId + 1 })
    else
      (Except.error ⟨500, "Error: record insert failed"⟩, s1)

/-- The row constructed by a successful upload: next auto-increment id, the
blob path `uploads/<filename>`, the validated label, and the insert clock. -/
def newRecord (filename : String) (hasil : Int) (now nextId : Nat) : Klasifikasi :=
  { id := nextId, path := UPLOAD_DIR ++ "/" ++ filename, hasil := hasil,
    created_at := now, updated_at := now }

/-- `ORDER BY id DESC` as a relation on rows. -/
def recGE (a b : Klasifikasi) : Prop := b.id ≤ a.id

instance : DecidableRel recGE := fun a b => inferInstanceAs (Decidable (b.id ≤ a.id))

instance : IsTotal Klasifikasi recGE := ⟨fun a b => Nat.le_total b.id a.id⟩

instance : IsTrans Klasifikasi recGE := ⟨fun _ _ _ hab hbc => Nat.le_trans hbc hab⟩

/-- The rows of the table ordered by `id` descending. -/
def orderByIdDesc (l : List Klasifikasi) : List Klasifikasi := l.insertionSort recGE

/-- Body of the `GET /klasifikasi` response. -/
structure AllDataResponse where
  total_data : Nat
  data : List RecordOut
deriving Repr, DecidableEq

/-- `GET /klasifikasi` (`get_all_data`): order by id descending, offset by
`skip`, take `limit`, and also report the unpaginated row count. -/
def get_all_data (skip limit : Nat) (s : State) : AllDataResponse :=
  let records := ((orderByIdDesc s.records).drop skip).take limit
  { total_data := s.records.length, data := records.map renderRecord }

/-- `GET /klasifikasi/id` (`get_data_by_id`): first row matching the id,
or HTTP 404 when there is none. -/
def get_data_by_id (i : Nat) (s : State) : Except HTTPException RecordOut :=
  match (s.records.filter (fun r => r.id == i)).head? with
  | some r => Except.ok (renderRecord r)
  | none => Except.error ⟨404, "Data tidak ditemukan"⟩

/-- Body of the `GET /klasifikasi/status/hasil` response. -/
structure StatusResponse where
  filter : String
  total_data : Nat
  data : List RecordOut
deriving Repr, DecidableEq

/-- `GET /klasifikasi/status/hasil` (`get_by_status`): HTTP 400 unless the
label is 0 or 1, otherwise the matching rows ordered by id descending. -/
def get_by_status (hasil : Int) (s : State) : Except HTTPException StatusResponse :=
  if ¬(hasil = 0 ∨ hasil = 1) then
    Except.error ⟨400, "Hasil harus 0 atau 1"⟩
  else
    let records := orderByIdDesc (s.records.filter (fun r => r.hasil == hasil))
    let status_label := hasilLabel hasil
    Except.ok { filter := "Status " ++ status_label,
                total_data := (records.map renderRecord).length,
                data := records.map renderRecord }

/-- Python `round(q, 2)`: round to 2 decimal places, ties to even
(modelled over the exact rationals). -/
def pyRound2 (q : ℚ) : ℚ :=
  let scaled := q * 100
  let f : Int := Int.floor scaled
  let n : Int :=
    if scaled - f < 1 / 2 then f
    else if 1 / 2 < scaled - f then f + 1
    else if f % 2 = 0 then f else f + 1
  (n : ℚ) / 100

/-- Body of the `GET /statistik` response. -/
structure StatsResponse where
  total_data : Nat
  status_sehat : Nat
  status_sakit : Nat
  persentase_sehat : ℚ
  persentase_sakit : ℚ
deriving Repr, DecidableEq

/-- `GET /statistik` (`get_statistics`): row counts and percentages, the
division special-cased to 0 when the table is empty. -/
def get_statistics (s : State) : StatsResponse :=
  let total := s.records.length
  let sehat := (s.records.filter (fun r => r.hasil == 1)).length
  let sakit := (s.records.filter (fun r => r.hasil == 0)).length
  { total_data := total, status_sehat := sehat, status_sakit := sakit,
    persentase_sehat :=
      if 0 < total then pyRound2 ((sehat : ℚ) / (total : ℚ) * 100) else 0,
    persentase_sakit :=
      if 0 < total then pyRound2 ((sakit : ℚ) / (total : ℚ) * 100) else 0 }

/-- One API request (the health-check endpoint touches no state and is not
modelled).  The upload request carries the insert-failure oracle and clock. -/
inductive Request where
  | upload (filename : String) (content : Blob) (hasil : Int) (insertOk : Bool) (now : Nat)
  | list (skip limit : Nat)
  | byId (i : Nat)
  | byStatus (hasil : Int)
  | statistik
deriving Repr, DecidableEq

/-- One API response. -/
inductive Response where
  | uploadR (r : Except HTTPException UploadResponse)
  | listR (r : AllDataResponse)
  | byIdR (r : Except HTTPException RecordOut)
  | byStatusR (r : Except HTTPException StatusResponse)
  | statsR (r : StatsResponse)
deriving Repr

/-- Request dispatch: each handler runs against the shared state; only the
upload handler contains any mutation statement. -/
def step : Request → State → Response × State
  | Request.upload f c h ok now, s =>
    let p := upload_data f c h ok now s
    (Response.uploadR p.1, p.2)
  | Request.list skip limit, s => (Response.listR (get_all_data skip limit s), s)
  | Request.byId i, s => (Response.byIdR (get_data_by_id i s), s)
  | Request.byStatus h, s => (Response.byStatusR (get_by_status h s), s)
  | Request.statistik, s => (Response.statsR (get_statistics s), s)

/-- The four read-only endpoints. -/
def isReadRequest : Request → Bool
  | Request.upload .. => false
  | _ => true

/-- States reachable from a fresh deployment by any sequence of requests. -/
inductive Reachable : State → Prop where
  | init : Reachable initialState
  | next (req : Request) (s : State) : Reachable s → Reachable (step req s).2

/-- The state invariant maintained by the service: row ids are below the next
auto-increment value, strictly increasing in insertion order, every stored
label is 0 or 1, and every row's `path` points at an existing blob. -/
def StateInv (s : State) : Prop :=
  (∀ r ∈ s.records, r.id < s.nextId) ∧
  s.records.Pairwise (fun a b => a.id < b.id) ∧
  (∀ r ∈ s.records, r.hasil = 0 ∨ r.hasil = 1) ∧
  (∀ r ∈ s.records, (lookupBlob r.path s.blobs).isSome = true)

/-- State after one successful upload (row id 1). -/
def exampleState1 : State := (step (Request.upload "a.jpg" [7] 1 true 0) initialState).2

/-- State after two successful uploads (row ids 1, 2). -/
def exampleState2 : State := (step (Request.upload "b.png" [8] 0 true 0) exampleState1).2

/-- State after three successful uploads (row ids 1, 2, 3). -/
def exampleState3 : State := (step (Request.upload "c.bmp" [9] 1 true 0) exampleState2).2

/-! ### Helper lemmas -/

theorem pySplitDot_ne_nil (l : List Char) : pySplitDot l ≠ [] := by
  cases l with
  | nil => simp [pySplitDot]
  | cons c rest =>
    simp only [pySplitDot]
    cases pySplitDot rest with
    | nil => simp
    | cons hd tl => by_cases hc : c = '.' <;> simp [hc]

theorem pySplitDot_no_dot (l : List Char) (h : '.' ∉ l) : pySplitDot l = [l] := by
  induction l with
  | nil => rfl
  | cons c rest ih =>
    simp only [List.mem_cons, not_or] at h
    have hc : ¬ c = '.' := fun hcc => h.1 hcc.symm
    rw [pySplitDot, ih h.2]
    simp [hc]

theorem string_mk_data (s : String) : String.mk s.data = s := by
  cases s
  rfl

theorem file_extension_no_dot (s : String) (h : '.' ∉ s.data) :
    file_extension s = pyLower s := by
  unfold file_extension
  rw [pySplitDot_no_dot s.data h]
  simp [List.getLastD, string_mk_data]

theorem lookupBlob_blobWrite_self (k : String) (v : Blob) (bs : List (String × Blob)) :
    lookupBlob k (blobWrite k v bs) = some v := by
  induction bs with
  | nil => simp [blobWrite, lookupBlob]
  | cons p rest ih =>
    obtain ⟨k0, v0⟩ := p
    by_cases hk : k0 = k
    · simp [blobWrite, hk, lookupBlob]
    · simp [blobWrite, hk, lookupBlob, ih]

theorem lookupBlob_blobWrite_ne (k kq : String) (v : Blob) (bs : List (String × Blob))
    (h : ¬ k = kq) :
    lookupBlob kq (blobWrite k v bs) = lookupBlob kq bs := by
  induction bs with
  | nil => simp [blobWrite, lookupBlob, h]
  | cons p rest ih =>
    obtain ⟨k0, v0⟩ := p
    by_cases hk : k0 = k
    · subst hk
      simp [blobWrite, lookupBlob, h]
    · by_cases hq : k0 = kq
      · have h2 : ¬ kq = k := fun hh => h hh.symm
        simp [blobWrite, lookupBlob, hk, hq, h2]
      · simp [blobWrite, lookupBlob, hk, hq, ih]

theorem lookupBlob_blobWrite_isSome (k kq : String) (v : Blob) (bs : List (String × Blob))
    (h : (lookupBlob kq bs).isSome = true) :
    (lookupBlob kq (blobWrite k v bs)).isSome = true := by
  by_cases hk : k = kq
  · subst hk
    rw [lookupBlob_blobWrite_self]
    rfl
  · rw [lookupBlob_blobWrite_ne k kq v bs hk]
    exact h

theorem upload_data_inv (filename : String) (content : Blob) (hasil : Int)
    (insertOk : Bool) (now : Nat) (s : State) (hs : StateInv s) :
    StateInv (upload_data filename content hasil insertOk now s).2 := by
  obtain ⟨hid, hpw, hlab, hblob⟩ := hs
  unfold upload_data
  split
  · exact ⟨hid, hpw, hlab, hblob⟩
  · split
    · exact ⟨hid, hpw, hlab, hblob⟩
    · rename_i hlabel
      rw [not_not] at hlabel
      split
      · refine ⟨?_, ?_, ?_, ?_⟩
        · intro r hr
          simp only [List.mem_append, List.mem_singleton] at hr
          rcases hr with hr | hr
          · exact Nat.lt_succ_of_lt (hid r hr)
          · subst hr
            exact Nat.lt_succ_self _
        · rw [List.pairwise_append]
          refine ⟨hpw, List.pairwise_singleton _ _, ?_⟩
          intro a ha b hb
          simp only [List.mem_singleton] at hb
          subst hb
          exact hid a ha
        · intro r hr
          simp only [List.mem_append, List.mem_singleton] at hr
          rcases hr with hr | hr
          · exact hlab r hr
          · subst hr
            exact hlabel
        · intro r hr
          simp only [List.mem_append, List.mem_singleton] at hr
          rcases hr with hr | hr
          · exact lookupBlob_blobWrite_isSome _ _ _ _ (hblob r hr)
          · subst hr
            rw [lookupBlob_blobWrite_self]
            rfl
      · refine ⟨hid, hpw, hlab, ?_⟩
        intro r hr
        exact lookupBlob_blobWrite_isSome _ _ _ _ (hblob r hr)

theorem stateInv_initial : StateInv initialState := by
  refine ⟨?_, ?_, ?_, ?_⟩ <;> simp [initialState]

theorem reachable_inv (s : State) (h : Reachable s) : StateInv s := by
  induction h with
  | init => exact stateInv_initial
  | next req s0 hr ih =>
    cases req with
    | upload f c hv ok now => exact upload_data_inv f c hv ok now s0 ih
    | list skip limit => exact ih
    | byId i => exact ih
    | byStatus hv => exact ih
    | statistik => exact ih

theorem filter_hasil_length (l : List Klasifikasi)
    (h : ∀ r ∈ l, r.hasil = 0 ∨ r.hasil = 1) :
    (l.filter (fun r => r.hasil == 1)).length + (l.filter (fun r => r.hasil == 0)).length
      = l.length := by
  induction l with
  | nil => rfl
  | cons a t ih =>
    have ht := fun r hr => h r (List.mem_cons_of_mem a hr)
    rcases h a (List.mem_cons_self a t) with h0 | h1
    · simp only [List.filter_cons, h0, List.length_cons, ← ih ht]
      norm_num
      omega
    · simp only [List.filter_cons, h1, List.length_cons, ← ih ht]
      norm_num
      omega

theorem filter_id_unique (l : List Klasifikasi)
    (hp : l.Pairwise (fun a b => a.id < b.id)) (r : Klasifikasi) (hr : r ∈ l) :
    l.filter (fun x => x.id == r.id) = [r] := by
  induction l with
  | nil => cases hr
  | cons a t ih =>
    rw [List.pairwise_cons] at hp
    rcases List.mem_cons.mp hr with rfl | hrt
    · have hnone : t.filter (fun x => x.id == r.id) = [] := by
        rw [List.filter_eq_nil_iff]
        intro b hb
        have hlt := hp.1 b hb
        simp only [beq_iff_eq]
        omega
      simp [List.filter_cons, hnone]
    · have hlt := hp.1 r hrt
      have hne : (a.id == r.id) = false := by
        simp only [beq_eq_false_iff_ne, ne_eq]
        omega
      simp [List.filter_cons, hne, ih hp.2 hrt]

theorem orderByIdDesc_sorted (l : List Klasifikasi) : (orderByIdDesc l).Sorted recGE :=
  List.sorted_insertionSort recGE l

theorem orderByIdDesc_perm (l : List Klasifikasi) : (orderByIdDesc l).Perm l :=
  List.perm_insertionSort recGE l

theorem pairwise_ids_of_sorted {l : List Klasifikasi} (h : l.Sorted recGE) :
    (l.map renderRecord).Pairwise (fun a b => b.id ≤ a.id) := by
  rw [List.pairwise_map]
  exact h.imp (fun hab => hab)

theorem get_by_id_last (old : List Klasifikasi) (new : Klasifikasi) (n : Nat)
    (bs : List (String × Blob)) (hid : ∀ r ∈ old, r.id ≠ new.id) :
    get_data_by_id new.id { records := old ++ [new], nextId := n, blobs := bs }
      = Except.ok (renderRecord new) := by
  have hold : old.filter (fun r => r.id == new.id) = [] := by
    rw [List.filter_eq_nil_iff]
    intro b hb
    simpa using hid b hb
  have hhead : ((old ++ [new]).filter (fun r => r.id == new.id)).head? = some new := by
    simp [List.filter_append, hold]
  unfold get_data_by_id
  rw [hhead]

/-! ### Claim theorems -/

/-- Claim C1: an upload whose computed filename extension (suffix after the
last dot, lowercased) is not among jpg/jpeg/png/bmp, or whose label is not
exactly 0 or 1, fails with HTTP 400 and leaves the state — records and blob
store alike — completely unchanged. -/
theorem C1_upload_invalid_rejected (filename : String) (content : Blob) (hasil : Int)
    (insertOk : Bool) (now : Nat) (s : State)
    (h : allowed_extensions.contains (file_extension filename) = false ∨
         ¬(hasil = 0 ∨ hasil = 1)) :
    isHTTPError 400 (upload_data filename content hasil insertOk now s).1 = true ∧
    (upload_data filename content hasil insertOk now s).2 = s := by
  unfold upload_data
  rcases h with h | h
  · rw [if_pos h]
    exact ⟨rfl, rfl⟩
  · by_cases hext : allowed_extensions.contains (file_extension filename) = false
    · rw [if_pos hext]
      exact ⟨rfl, rfl⟩
    · rw [if_neg hext, if_pos h]
      exact ⟨rfl, rfl⟩

/-- Witness for C1 at the concrete rejected upload of `virus.txt`. -/
theorem C1_witness :
    (allowed_extensions.contains (file_extension "virus.txt") = false ∨
      ¬((1 : Int) = 0 ∨ (1 : Int) = 1)) ∧
    isHTTPError 400 (upload_data "virus.txt" [0] 1 true 0 initialState).1 = true ∧
    (upload_data "virus.txt" [0] 1 true 0 initialState).2 = initialState := by
  have h : allowed_extensions.contains (file_extension "virus.txt") = false := by decide
  exact ⟨Or.inl h, C1_upload_invalid_rejected "virus.txt" [0] 1 true 0 initialState (Or.inl h)⟩

/-- Claim C3: the statistics endpoint reports the total row count, the count
of label-1 (Sehat) rows, the count of label-0 (Sakit) rows, each percentage
computed as round(count/total*100, 2), and both percentages are 0 — not an
error — when the table is empty. -/
theorem C3_statistics_spec (s : State) :
    (get_statistics s).total_data = s.records.length ∧
    (get_statistics s).status_sehat = (s.records.filter (fun r => r.hasil == 1)).length ∧
    (get_statistics s).status_sakit = (s.records.filter (fun r => r.hasil == 0)).length ∧
    (get_statistics s).persentase_sehat =
      (if 0 < s.records.length then
        pyRound2 (((get_statistics s).status_sehat : ℚ) / (s.records.length : ℚ) * 100)
       else 0) ∧
    (get_statistics s).persentase_sakit =
      (if 0 < s.records.length then
        pyRound2 (((get_statistics s).status_sakit : ℚ) / (s.records.length : ℚ) * 100)
       else 0) ∧
    (s.records.length = 0 →
      (get_statistics s).persentase_sehat = 0 ∧ (get_statistics s).persentase_sakit = 0) := by
  refine ⟨rfl, rfl, rfl, rfl, rfl, ?_⟩
  intro h
  simp [get_statistics, h]

/-- Witness for C3: on the empty store both percentages evaluate to 0. -/
theorem C3_witness :
    (get_statistics initialState).persentase_sehat = 0 ∧
    (get_statistics initialState).persentase_sakit = 0 :=
  (C3_statistics_spec initialState).2.2.2.2.2 rfl

/-- Claim C8: every read endpoint (list, by-id, by-status, statistics) leaves
the state unchanged, and repeating the same read on the resulting state gives
the identical response. -/
theorem C8_reads_pure (req : Request) (s : State) (h : isReadRequest req = true) :
    (step req s).2 = s ∧
    (step req ((step req s).2)).1 = (step req s).1 := by
  cases req with
  | upload f c hv ok now => simp [isReadRequest] at h
  | list skip limit => exact ⟨rfl, rfl⟩
  | byId i => exact ⟨rfl, rfl⟩
  | byStatus hv => exact ⟨rfl, rfl⟩
  | statistik => exact ⟨rfl, rfl⟩

/-- Witness for C8: the statistics read on the one-row state. -/
theorem C8_witness :
    (step Request.statistik exampleState1).2 = exampleState1 ∧
    (step Request.statistik ((step Request.statistik exampleState1).2)).1
      = (step Request.statistik exampleState1).1 :=
  C8_reads_pure Request.statistik exampleState1 rfl

/-- Claim C9: for a filename containing no dot, Python split yields the whole
filename as its last component, so the upload (with a valid label) is accepted
exactly when the whole filename, lowercased, is one of jpg/jpeg/png/bmp. -/
theorem C9_no_dot_whole_filename (filename : String) (content : Blob) (hasil : Int)
    (now : Nat) (s : State) (hdot : '.' ∉ filename.data) (hlab : hasil = 0 ∨ hasil = 1) :
    isOkE (upload_data filename content hasil true now s).1 = true ↔
      allowed_extensions.contains (pyLower filename) = true := by
  unfold upload_data
  rw [file_extension_no_dot filename hdot]
  by_cases hc : allowed_extensions.contains (pyLower filename) = true
  · have hc2 : ¬ (allowed_extensions.contains (pyLower filename) = false) := by
      rw [hc]
      simp
    rw [if_neg hc2, if_neg (not_not_intro hlab), if_pos rfl]
    exact ⟨fun _ => hc, fun _ => rfl⟩
  · have hc2 : allowed_extensions.contains (pyLower filename) = false := by
      simpa using hc
    rw [if_pos hc2, hc2]
    simp [isOkE]

/-- Witness for C9: a file named exactly `png` (no dot) passes validation. -/
theorem C9_witness :
    ('.' ∉ ("png" : String).data) ∧
    (isOkE (upload_data "png" [3] 1 true 0 initialState).1 = true ↔
      allowed_extensions.contains (pyLower "png") = true) := by
  have hd : '.' ∉ ("png" : String).data := by decide
  exact ⟨hd, C9_no_dot_whole_filename "png" [3] 1 0 initialState hd (Or.inr rfl)⟩

/-- Claim C2: a valid upload (allowed extension, label 0 or 1) on any
reachable state returns HTTP 201 with the created record, and querying the
returned id afterwards returns exactly that record — same path, same label. -/
theorem C2_upload_then_get (filename : String) (content : Blob) (hasil : Int)
    (now : Nat) (s : State) (hreach : Reachable s)
    (hext : allowed_extensions.contains (file_extension filename) = true)
    (hlab : hasil = 0 ∨ hasil = 1) :
    ∃ out : UploadResponse,
      (upload_data filename content hasil true now s).1 = Except.ok out ∧
      out.status_code = 201 ∧
      get_data_by_id out.data.id (upload_data filename content hasil true now s).2
        = Except.ok out.data := by
  obtain ⟨hid, hpw, hlab2, hblob⟩ := reachable_inv s hreach
  have h1 : ¬ (allowed_extensions.contains (file_extension filename) = false) := by
    rw [hext]
    simp
  unfold upload_data
  rw [if_neg h1, if_neg (not_not_intro hlab), if_pos rfl]
  refine ⟨_, rfl, rfl, ?_⟩
  show get_data_by_id (newRecord filename hasil now s.nextId).id
      { records := s.records ++ [newRecord filename hasil now s.nextId],
        nextId := s.nextId + 1,
        blobs := blobWrite (UPLOAD_DIR ++ "/" ++ filename) content s.blobs }
      = Except.ok (renderRecord (newRecord filename hasil now s.nextId))
  refine get_by_id_last s.records _ (s.nextId + 1)
    (blobWrite (UPLOAD_DIR ++ "/" ++ filename) content s.blobs) ?_
  intro r hr
  exact Nat.ne_of_lt (hid r hr)

/-- Witness for C2 at a concrete upload on the one-row state. -/
theorem C2_witness :
    ∃ out : UploadResponse,
      (upload_data "d.jpeg" [4] 0 true 3 exampleState1).1 = Except.ok out ∧
      out.status_code = 201 ∧
      get_data_by_id out.data.id (upload_data "d.jpeg" [4] 0 true 3 exampleState1).2
        = Except.ok out.data := by
  have h1 : Reachable exampleState1 :=
    Reachable.next (Request.upload "a.jpg" [7] 1 true 0) initialState Reachable.init
  exact C2_upload_then_get "d.jpeg" [4] 0 3 exampleState1 h1 (by decide) (Or.inl rfl)

/-- Claim C4: the list endpoint reports the unpaginated total, returns the
rows ordered by id descending with `skip` dropped and at most `limit` taken,
and on the concrete three-row store returns ids [3, 2] for skip=0,limit=2 and
[1] for skip=2,limit=2. -/
theorem C4_get_all_data_spec (skip limit : Nat) (s : State) :
    (get_all_data skip limit s).total_data = s.records.length ∧
    (get_all_data skip limit s).data
      = (((orderByIdDesc s.records).drop skip).take limit).map renderRecord ∧
    (get_all_data skip limit s).data.length ≤ limit ∧
    (get_all_data skip limit s).data.Pairwise (fun a b => b.id ≤ a.id) ∧
    (get_all_data 0 2 exampleState3).data.map RecordOut.id = [3, 2] ∧
    (get_all_data 2 2 exampleState3).data.map RecordOut.id = [1] := by
  refine ⟨rfl, rfl, ?_, ?_, ?_, ?_⟩
  · simp only [get_all_data, List.length_map, List.length_take]
    omega
  · have hsub : List.Sublist (((orderByIdDesc s.records).drop skip).take limit)
        (orderByIdDesc s.records) :=
      (List.take_sublist _ _).trans (List.drop_sublist _ _)
    exact pairwise_ids_of_sorted (List.Pairwise.sublist hsub (orderByIdDesc_sorted s.records))
  · decide
  · decide

/-- Claim C5: the status filter endpoint rejects labels outside 0/1 with
HTTP 400, and otherwise returns exactly the rows with that label, ordered by
id descending, with their count. -/
theorem C5_get_by_status_spec (hasil : Int) (s : State) :
    (¬(hasil = 0 ∨ hasil = 1) →
      get_by_status hasil s = Except.error ⟨400, "Hasil harus 0 atau 1"⟩) ∧
    ((hasil = 0 ∨ hasil = 1) →
      ∃ resp : StatusResponse,
        get_by_status hasil s = Except.ok resp ∧
        resp.total_data = resp.data.length ∧
        resp.data.Perm ((s.records.filter (fun r => r.hasil == hasil)).map renderRecord) ∧
        resp.data.Pairwise (fun a b => b.id ≤ a.id)) := by
  constructor
  · intro h
    unfold get_by_status
    rw [if_pos h]
  · intro h
    unfold get_by_status
    rw [if_neg (not_not_intro h)]
    refine ⟨_, rfl, rfl, ?_, ?_⟩
    · exact (orderByIdDesc_perm _).map renderRecord
    · exact pairwise_ids_of_sorted (orderByIdDesc_sorted _)

/-- Witness for C5: label 2 is rejected; label 1 on the one-row state. -/
theorem C5_witness :
    get_by_status 2 initialState = Except.error ⟨400, "Hasil harus 0 atau 1"⟩ ∧
    (∃ resp : StatusResponse,
      get_by_status 1 exampleState1 = Except.ok resp ∧
      resp.total_data = resp.data.length ∧
      resp.data.Perm ((exampleState1.records.filter (fun r => r.hasil == 1)).map renderRecord) ∧
      resp.data.Pairwise (fun a b => b.id ≤ a.id)) :=
  ⟨(C5_get_by_status_spec 2 initialState).1 (by decide),
   (C5_get_by_status_spec 1 exampleState1).2 (Or.inr rfl)⟩

/-- Claim C6: on any reachable state, querying an id held by some row returns
that row, and the endpoint returns HTTP 404 exactly when no row has the id. -/
theorem C6_get_by_id_spec (s : State) (hreach : Reachable s) (i : Nat) :
    (∀ r ∈ s.records, r.id = i → get_data_by_id i s = Except.ok (renderRecord r)) ∧
    (get_data_by_id i s = Except.error ⟨404, "Data tidak ditemukan"⟩ ↔
      ∀ r ∈ s.records, r.id ≠ i) := by
  obtain ⟨hid, hpw, hlab, hblob⟩ := reachable_inv s hreach
  constructor
  · intro r hr hri
    subst hri
    unfold get_data_by_id
    rw [filter_id_unique s.records hpw r hr]
    rfl
  · unfold get_data_by_id
    constructor
    · intro hmatch r hr hri
      subst hri
      rw [filter_id_unique s.records hpw r hr] at hmatch
      exact Except.noConfusion hmatch
    · intro h
      have hnil : s.records.filter (fun x => x.id == i) = [] := by
        rw [List.filter_eq_nil_iff]
        intro b hb
        simpa using h b hb
      rw [hnil]
      rfl

/-- Witness for C6: id 1 is found in the one-row state, id 99 is a 404. -/
theorem C6_witness :
    get_data_by_id 1 exampleState1
      = Except.ok (renderRecord
          { id := 1, path := "uploads/a.jpg", hasil := 1, created_at := 0, updated_at := 0 }) ∧
    (get_data_by_id 99 exampleState1 = Except.error ⟨404, "Data tidak ditemukan"⟩ ↔
      ∀ r ∈ exampleState1.records, r.id ≠ 99) := by
  have hreach : Reachable exampleState1 :=
    Reachable.next (Request.upload "a.jpg" [7] 1 true 0) initialState Reachable.init
  refine ⟨?_, (C6_get_by_id_spec exampleState1 hreach 99).2⟩
  exact (C6_get_by_id_spec exampleState1 hreach 1).1 _ (by decide) rfl

/-- Claim C7: every committed row of a reachable state points at a blob that
exists in the blob store (write-then-commit ordering), and when the insert
fails after the blob write, the request fails with HTTP 500, no row is added,
and the written blob remains as an orphan. -/
theorem C7_write_then_commit :
    (∀ s : State, Reachable s → ∀ r ∈ s.records,
      (lookupBlob r.path s.blobs).isSome = true) ∧
    (∀ (filename : String) (content : Blob) (hasil : Int) (now : Nat) (s : State),
      allowed_extensions.contains (file_extension filename) = true →
      (hasil = 0 ∨ hasil = 1) →
      isHTTPError 500 (upload_data filename content hasil false now s).1 = true ∧
      (upload_data filename content hasil false now s).2.records = s.records ∧
      lookupBlob (UPLOAD_DIR ++ "/" ++ filename)
        (upload_data filename content hasil false now s).2.blobs = some content) := by
  constructor
  · intro s hs r hr
    exact (reachable_inv s hs).2.2.2 r hr
  · intro filename content hasil now s hext hlab
    have h1 : ¬ (allowed_extensions.contains (file_extension filename) = false) := by
      rw [hext]
      simp
    unfold upload_data
    rw [if_neg h1, if_neg (not_not_intro hlab), if_neg Bool.false_ne_true]
    exact ⟨rfl, rfl, lookupBlob_blobWrite_self _ _ _⟩

/-- Witness for C7: a failed insert after writing `uploads/a.jpg`. -/
theorem C7_witness :
    isHTTPError 500 (upload_data "a.jpg" [7] 1 false 0 initialState).1 = true ∧
    (upload_data "a.jpg" [7] 1 false 0 initialState).2.records = initialState.records ∧
    lookupBlob (UPLOAD_DIR ++ "/" ++ "a.jpg")
      (upload_data "a.jpg" [7] 1 false 0 initialState).2.blobs = some [7] :=
  C7_write_then_commit.2 "a.jpg" [7] 1 0 initialState (by decide) (Or.inr rfl)

/-- Claim C10: every persisted row of a reachable state has its label in
0/1, hence the statistics counts always satisfy sehat + sakit = total. -/
theorem C10_labels_binary (s : State) (hreach : Reachable s) :
    (∀ r ∈ s.records, r.hasil = 0 ∨ r.hasil = 1) ∧
    (get_statistics s).status_sehat + (get_statistics s).status_sakit
      = (get_statistics s).total_data := by
  have hlab := (reachable_inv s hreach).2.2.1
  exact ⟨hlab, filter_hasil_length s.records hlab⟩

/-- Witness for C10 on the reachable two-row state. -/
theorem C10_witness :
    (∀ r ∈ exampleState2.records, r.hasil = 0 ∨ r.hasil = 1) ∧
    (get_statistics exampleState2).status_sehat + (get_statistics exampleState2).status_sakit
      = (get_statistics exampleState2).total_data := by
  have h1 : Reachable exampleState1 :=
    Reachable.next (Request.upload "a.jpg" [7] 1 true 0) initialState Reachable.init
  exact C10_labels_binary exampleState2
    (Reachable.next (Request.upload "b.png" [8] 0 true 0) exampleState1 h1)

end Coba
